import Mathlib

/-!
Shallow embedding of the Judgebox judge service (Flask + docker-py) and proofs
about its verdict classification, aggregation, execution-controller error
handling and resource-lifecycle behaviour.

Sources embedded:
- app/services/code_executor.py (class CodeExecutor)
- app/routes.py (the judge endpoint)
- app/services/judge_service.py (get_problem / get_test_cases)

External effects (the Docker daemon, the temporary-directory filesystem, the
HTTP collaborator) are modelled by explicit behaviour oracles: a behaviour
record fixes, for each effectful step of one call, whether that step succeeds
and with which value, or raises which Python exception.  Each embedded
function returns its Python result (or the exception it propagates) together
with a trace of resource events, so that resource-lifecycle properties are
statements about the trace.
-/

set_option autoImplicit false

namespace Judgebox

/-- Python exceptions that can flow through the judge code paths. -/
inductive PyExn where
  | dockerConnectionError (msg : String)
  | unsupportedLanguage (msg : String)
  | compilationError (msg : String)
  | containerError
  | notFound
  | apiError
  | readTimeout
  | typeError (msg : String)
  | keyError (key : String)
  | attributeError (msg : String)
  | otherError (msg : String)
  deriving DecidableEq, Repr

/-- Python str(e) for the exceptions above (only its existence matters for the
claims; error detail strings are carried through unchanged). -/
def excStr : PyExn → String
  | .dockerConnectionError m => m
  | .unsupportedLanguage m => m
  | .compilationError m => m
  | .containerError => "ContainerError"
  | .notFound => "NotFound"
  | .apiError => "APIError"
  | .readTimeout => "ReadTimeout"
  | .typeError m => m
  | .keyError k => k
  | .attributeError m => m
  | .otherError m => m

/-- True exactly for UnsupportedLanguageError. -/
def PyExn.isUnsupportedLanguage : PyExn → Bool
  | .unsupportedLanguage _ => true
  | _ => false

/-- True exactly for DockerConnectionError. -/
def PyExn.isDockerConnectionError : PyExn → Bool
  | .dockerConnectionError _ => true
  | _ => false

/-- Which phase a containers.run invocation belongs to. -/
inductive Phase where
  | compile
  | run
  deriving DecidableEq, Repr

/-- One docker containers.run invocation, with the arguments the claims are
about. `started` records whether a container instance actually resulted from
the call (it is false when the client call itself raised before creating
one). `autoRemove` is the remove=True keyword of the compile-phase call. -/
structure ContainerRun where
  phase : Phase
  networkMode : String
  detach : Bool
  autoRemove : Bool
  started : Bool
  deriving DecidableEq, Repr

/-- Resource events recorded while executing. -/
inductive Event where
  | dockerInit
  | dockerPing
  | wsCreate
  | wsDestroy
  | containerRun (c : ContainerRun)
  | containerWait
  | containerLogs
  | containerRemove (force : Bool)
  deriving DecidableEq, Repr

/-- One entry of LANGUAGE_CONFIGS in CodeExecutor.configure_language.
The run-command template field of the source is named runCmd here. -/
structure LanguageConfig where
  image : String
  extension : String
  compile_cmd : Option String
  runCmd : String
  deriving DecidableEq, Repr

/-- The LANGUAGE_CONFIGS dictionary of CodeExecutor.configure_language. -/
def LANGUAGE_CONFIGS (language : String) : Option LanguageConfig :=
  if language = "python" then
    some { image := "python:3.9-slim", extension := ".py", compile_cmd := none,
           runCmd := "python {filename}" }
  else if language = "cpp" then
    some { image := "gcc:latest", extension := ".cpp",
           compile_cmd := some "g++ {filename} -o program", runCmd := "./program" }
  else
    none

/-- Behaviour oracle for one CodeExecutor call: what each effectful step of
docker / the filesystem does.  `none` as an outcome means the step succeeds;
`some e` means it raises `e`.  `removeRaisesApiError` models that
docker-py Container.remove reports failure by raising docker.errors.APIError;
the source catches exactly that class in its cleanup clause and ignores it,
so this flag influences neither the result nor the trace. -/
structure SandboxBehavior where
  fromEnvOk : Bool
  unixSocketOk : Bool
  wsOutcome : Option PyExn
  compileOutcome : Option PyExn
  runCreateOutcome : Option PyExn
  waitOutcome : Except PyExn Int
  waitError : Option String
  logsOutcome : Except PyExn String
  removeRaisesApiError : Bool

/-- CodeExecutor._initialize_docker: construct a client via from_env and ping
it; on DockerException retry with the unix-socket URL; if that also fails,
raise DockerConnectionError. -/
def initializeDocker (b : SandboxBehavior) : Except PyExn Unit × List Event :=
  if b.fromEnvOk then
    (.ok (), [.dockerInit, .dockerPing])
  else if b.unixSocketOk then
    (.ok (), [.dockerInit, .dockerInit, .dockerPing])
  else
    (.error (.dockerConnectionError "Failed to connect to Docker daemon"),
     [.dockerInit, .dockerInit])

/-- CodeExecutor.configure_language: look the language up in LANGUAGE_CONFIGS
and raise UnsupportedLanguageError when absent. -/
def configure_language (language : String) : Except PyExn LanguageConfig :=
  match LANGUAGE_CONFIGS language with
  | none => .error (.unsupportedLanguage ("Unsupported language: " ++ language))
  | some cfg => .ok cfg

/-- The state of a constructed CodeExecutor. -/
structure CodeExecutor where
  language : String
  source_code : String
  time_limit : Int
  memory_limit : Int
  language_config : LanguageConfig
  deriving DecidableEq, Repr

/-- CodeExecutor.__init__: store the arguments, then _initialize_docker,
then configure_language — in that order. -/
def initExecutor (b : SandboxBehavior) (language source_code : String)
    (time_limit memory_limit : Int) : Except PyExn CodeExecutor × List Event :=
  match initializeDocker b with
  | (.error e, evs) => (.error e, evs)
  | (.ok _, evs) =>
    match configure_language language with
    | .error e => (.error e, evs)
    | .ok cfg => (.ok ⟨language, source_code, time_limit, memory_limit, cfg⟩, evs)

/-- The dictionary CodeExecutor.execute returns (its keys are exactly
output, exit_code, error, status). -/
structure ExecutionResult where
  output : Option String
  exit_code : Int
  error : Option String
  status : String
  deriving DecidableEq, Repr

/-- CodeExecutor._compile_code: nothing when the profile has no compile
command; otherwise one containers.run invocation with remove=True and
network_mode set to none.  docker.errors.ContainerError (the container ran
and exited non-zero) is re-raised as CompilationError; any other exception
from the invocation propagates unchanged. -/
def compileCode (ex : CodeExecutor) (b : SandboxBehavior) :
    Except PyExn Unit × List Event :=
  match ex.language_config.compile_cmd with
  | none => (.ok (), [])
  | some _ =>
    match b.compileOutcome with
    | none =>
      (.ok (), [.containerRun { phase := .compile, networkMode := "none",
                                detach := false, autoRemove := true, started := true }])
    | some e =>
      if e = .containerError then
        (.error (.compilationError ("Compilation failed: " ++ excStr e)),
         [.containerRun { phase := .compile, networkMode := "none",
                          detach := false, autoRemove := true, started := true }])
      else
        (.error e, [.containerRun { phase := .compile, networkMode := "none",
                                    detach := false, autoRemove := true, started := false }])

/-- The run-phase containers.run invocation of CodeExecutor.execute
(detach=True, network_mode none, no remove=True). -/
def runCallEvent (started : Bool) : Event :=
  .containerRun { phase := .run, networkMode := "none", detach := true,
                  autoRemove := false, started := started }

/-- The run phase of CodeExecutor.execute: start the container detached; wait
with the time limit; read the logs; return the success dictionary.  The inner
handler turns docker.errors.NotFound from wait or logs into the
container-removed error dictionary; the outer handler turns
docker.errors.ContainerError into the generic error dictionary; any other
exception propagates.  The finally clause force-removes the container
whenever one was started (APIError from that removal is caught and
ignored, leaving result and trace unchanged). -/
def runPhase (b : SandboxBehavior) : Except PyExn ExecutionResult × List Event :=
  match b.runCreateOutcome with
  | some e =>
    if e = .containerError then
      -- container stayed None, so the finally clause removes nothing
      (.ok { output := none, exit_code := 1, error := some (excStr e), status := "error" },
       [runCallEvent false])
    else
      (.error e, [runCallEvent false])
  | none =>
    let inner : Except PyExn ExecutionResult × List Event :=
      match b.waitOutcome with
      | .ok code =>
        match b.logsOutcome with
        | .ok logs =>
          (.ok { output := some logs, exit_code := code, error := b.waitError,
                 status := "success" }, [.containerWait, .containerLogs])
        | .error e =>
          if e = .notFound then
            (.ok { output := none, exit_code := 1,
                   error := some "Container was removed unexpectedly", status := "error" },
             [.containerWait, .containerLogs])
          else if e = .containerError then
            (.ok { output := none, exit_code := 1, error := some (excStr e),
                   status := "error" }, [.containerWait, .containerLogs])
          else
            (.error e, [.containerWait, .containerLogs])
      | .error e =>
        if e = .notFound then
          (.ok { output := none, exit_code := 1,
                 error := some "Container was removed unexpectedly", status := "error" },
           [.containerWait])
        else if e = .containerError then
          (.ok { output := none, exit_code := 1, error := some (excStr e),
                 status := "error" }, [.containerWait])
        else
          (.error e, [.containerWait])
    (inner.1, runCallEvent true :: (inner.2 ++ [.containerRemove true]))

/-- The body of CodeExecutor.execute inside the outermost try: the workspace
context manager (CodeExecutor._prepare_workspace, a TemporaryDirectory that
is deleted on every exit of the with-block), then _compile_code when a
compile command exists, then the run phase. -/
def executeInner (ex : CodeExecutor) (b : SandboxBehavior) :
    Except PyExn ExecutionResult × List Event :=
  match b.wsOutcome with
  | some e => (.error e, [.wsCreate, .wsDestroy])
  | none =>
    match compileCode ex b with
    | (.error e, cevs) => (.error e, .wsCreate :: (cevs ++ [.wsDestroy]))
    | (.ok _, cevs) =>
      let rp := runPhase b
      (rp.1, .wsCreate :: (cevs ++ (rp.2 ++ [.wsDestroy])))

/-- CodeExecutor.execute: the body above wrapped in the outermost
try/except Exception, which converts any escaping exception into the
generic error dictionary. -/
def execute (ex : CodeExecutor) (b : SandboxBehavior) : ExecutionResult × List Event :=
  match executeInner ex b with
  | (.ok r, evs) => (r, evs)
  | (.error e, evs) =>
    ({ output := none, exit_code := 1, error := some (excStr e), status := "error" }, evs)

/-- Characters removed by Python str.strip (ASCII whitespace). -/
def isPySpace (c : Char) : Bool :=
  c = ' ' || c = '\t' || c = '\n' || c = '\r' || c = '\x0b' || c = '\x0c'

/-- Python str.strip: drop leading and trailing whitespace, keep the interior
exactly. -/
def pyStrip (s : String) : String :=
  String.mk (((s.data.dropWhile isPySpace).reverse.dropWhile isPySpace).reverse)

/-- The verdict classification of the judge endpoint (app/routes.py):
RUNTIME_ERROR when the exit code is non-zero; otherwise compare the stripped
output with the stripped expected output.  When the output field is None the
strip attribute access raises (that line is only reached with exit code 0). -/
def classify (result : ExecutionResult) (expected : String) : Except PyExn String :=
  if result.exit_code ≠ 0 then .ok "RUNTIME_ERROR"
  else
    match result.output with
    | none => .error (.attributeError "NoneType object has no attribute strip")
    | some out =>
      if pyStrip out ≠ pyStrip expected then .ok "WRONG_ANSWER" else .ok "ACCEPTED"

/-- Python values stored in the per-case result record. -/
inductive PyVal where
  | none
  | str (s : String)
  | int (n : Int)
  deriving DecidableEq, Repr

/-- Python dictionary lookup on the execute result dictionary: a key other
than its four actual keys raises KeyError. -/
def ExecutionResult.item (r : ExecutionResult) (key : String) : Except PyExn PyVal :=
  if key = "output" then
    .ok (match r.output with | Option.none => .none | some s => .str s)
  else if key = "exit_code" then .ok (.int r.exit_code)
  else if key = "error" then
    .ok (match r.error with | Option.none => .none | some s => .str s)
  else if key = "status" then .ok (.str r.status)
  else .error (.keyError key)

/-- A test case as returned by the collaborator. -/
structure TestCase where
  id : String
  input : String
  output : String
  deriving DecidableEq, Repr

/-- One entry of the results list assembled by the judge endpoint. -/
structure CaseResult where
  testCaseId : String
  status : String
  executionTime : PyVal
  memoryUsed : PyVal
  deriving DecidableEq, Repr

/-- The aggregation line of the judge endpoint: ACCEPTED when every entry has
status ACCEPTED, otherwise WRONG_ANSWER. -/
def aggregate (results : List CaseResult) : String :=
  if results.all (fun r => r.status = "ACCEPTED") then "ACCEPTED" else "WRONG_ANSWER"

/-- The JSON body of a successful judge response. -/
structure SubmissionReport where
  submissionId : String
  result : String
  testResults : List CaseResult
  deriving DecidableEq, Repr

/-- What the judge endpoint returns when it does not raise. -/
inductive JudgeResponse where
  | report (r : SubmissionReport)
  | badRequest (error : String)
  deriving DecidableEq, Repr

/-- The problem data the endpoint reads from the collaborator response. -/
structure Problem where
  timeLimit : Int
  memoryLimit : Int
  deriving DecidableEq, Repr

/-- Behaviour oracle for one judge request.  `problemResp` and
`testCasesResp` are the returns of get_problem / get_test_cases
(app/services/judge_service.py): both catch RequestException — collaborator
unreachable or a non-2xx response — and return None, modelled as
Option.none here. -/
structure JudgeBehavior where
  problemResp : Option Problem
  testCasesResp : Option (List TestCase)
  sandbox : SandboxBehavior

/-- The loop body of the judge endpoint for one test case: execute, classify,
then build the record — which reads the keys execution_time and memory_used
from the result dictionary. -/
def judgeCase (ex : CodeExecutor) (b : SandboxBehavior) (tc : TestCase) :
    Except PyExn CaseResult × List Event :=
  let r := execute ex b
  (do
    let st ← classify r.1 tc.output
    let et ← r.1.item "execution_time"
    let mu ← r.1.item "memory_used"
    return { testCaseId := tc.id, status := st, executionTime := et, memoryUsed := mu },
   r.2)

/-- The judge endpoint loop over the test cases, in order; an exception from
any iteration propagates. -/
def judgeCases (ex : CodeExecutor) (b : SandboxBehavior) :
    List TestCase → Except PyExn (List CaseResult) × List Event
  | [] => (.ok [], [])
  | tc :: rest =>
    match judgeCase ex b tc with
    | (.error e, evs) => (.error e, evs)
    | (.ok r, evs) =>
      let rec' := judgeCases ex b rest
      (rec'.1.map (fun rs => r :: rs), evs ++ rec'.2)

/-- The judge endpoint (app/routes.py): fetch problem and test cases (a None
return from either makes the subscription of None raise TypeError), construct
the CodeExecutor catching only UnsupportedLanguageError (returned as an HTTP
400 body), run every test case, aggregate, and return the report. -/
def judge (jb : JudgeBehavior) (submissionId problemId language source_code : String) :
    Except PyExn JudgeResponse × List Event :=
  match jb.problemResp with
  | none => (.error (.typeError "NoneType object is not subscriptable"), [])
  | some problem =>
    match jb.testCasesResp with
    | none => (.error (.typeError "NoneType object is not subscriptable"), [])
    | some test_cases =>
      match initExecutor jb.sandbox language source_code
        problem.timeLimit problem.memoryLimit with
      | (.error e, evs) =>
        if e.isUnsupportedLanguage then (.ok (.badRequest (excStr e)), evs)
        else (.error e, evs)
      | (.ok ex, evs) =>
        match judgeCases ex jb.sandbox test_cases with
        | (.error e, evs2) => (.error e, evs ++ evs2)
        | (.ok results, evs2) =>
          (.ok (.report { submissionId := submissionId, result := aggregate results,
                          testResults := results }), evs ++ evs2)

/-! Concrete fixtures used by witnesses and counterexamples. -/

/-- A behaviour in which every effectful step succeeds: the daemon answers the
first ping, workspace writes succeed, the container starts, exits with code 0
and logs the given text. -/
def happyBehavior (logs : String) : SandboxBehavior :=
  { fromEnvOk := true, unixSocketOk := true, wsOutcome := none,
    compileOutcome := none, runCreateOutcome := none, waitOutcome := .ok 0,
    waitError := none, logsOutcome := .ok logs, removeRaisesApiError := false }

/-- A behaviour in which the Docker daemon is unreachable on both connection
attempts. -/
def dockerDownBehavior : SandboxBehavior :=
  { happyBehavior "" with fromEnvOk := false, unixSocketOk := false }

/-- A behaviour in which the wait on the container exceeds the time limit,
raising the read-timeout exception of the underlying HTTP client. -/
def timeoutBehavior : SandboxBehavior :=
  { happyBehavior "" with waitOutcome := .error .readTimeout }

/-- A behaviour in which the compile-phase container exits non-zero. -/
def compileFailBehavior : SandboxBehavior :=
  { happyBehavior "" with compileOutcome := some .containerError }

/-- A behaviour in which starting the run-phase container raises APIError
(for example because the daemon dropped the connection mid-call). -/
def runApiErrorBehavior : SandboxBehavior :=
  { happyBehavior "" with runCreateOutcome := some .apiError }

/-- The python entry of LANGUAGE_CONFIGS. -/
def pythonConfig : LanguageConfig :=
  { image := "python:3.9-slim", extension := ".py", compile_cmd := none,
    runCmd := "python {filename}" }

/-- The cpp entry of LANGUAGE_CONFIGS. -/
def cppConfig : LanguageConfig :=
  { image := "gcc:latest", extension := ".cpp",
    compile_cmd := some "g++ {filename} -o program", runCmd := "./program" }

/-- A CodeExecutor as constructed for a python submission. -/
def pythonExec : CodeExecutor :=
  { language := "python", source_code := "print(input())", time_limit := 1,
    memory_limit := 64, language_config := pythonConfig }

/-- A CodeExecutor as constructed for a cpp submission. -/
def cppExec : CodeExecutor :=
  { language := "cpp", source_code := "int main() \x7b return 0; \x7d",
    time_limit := 1, memory_limit := 64, language_config := cppConfig }

/-! Shared lemmas about the shape of execute results. -/

/-- Every dictionary execute can return either has status success, or has
status error together with exit code 1 and an absent output. -/
def ResultShape (r : ExecutionResult) : Prop :=
  r.status = "success" ∨
    (r.status = "error" ∧ r.exit_code = 1 ∧ r.output = Option.none)

theorem runPhase_ok_shape (b : SandboxBehavior) (r : ExecutionResult)
    (h : (runPhase b).1 = .ok r) : ResultShape r := by
  unfold runPhase at h
  rcases b with ⟨fe, us, ws, co, rc, wo, we, lo, rr⟩
  dsimp only at h
  rcases rc with _ | e <;> rcases wo with e2 | code <;> rcases lo with e3 | logs <;>
    dsimp only at h <;> (try split_ifs at h) <;> simp at h <;> subst h <;>
    first | exact Or.inl rfl | exact Or.inr ⟨rfl, rfl, rfl⟩

theorem executeInner_ok_shape (ex : CodeExecutor) (b : SandboxBehavior)
    (r : ExecutionResult) (h : (executeInner ex b).1 = .ok r) : ResultShape r := by
  unfold executeInner at h
  rcases hws : b.wsOutcome with _ | e
  · rw [hws] at h
    dsimp only at h
    rcases hc : compileCode ex b with ⟨cres, cevs⟩
    rw [hc] at h
    rcases cres with e | u
    · exact absurd h (by simp)
    · exact runPhase_ok_shape b r h
  · rw [hws] at h
    exact absurd h (by simp)

theorem execute_result_shape (ex : CodeExecutor) (b : SandboxBehavior) :
    ResultShape (execute ex b).1 := by
  unfold execute
  rcases hi : executeInner ex b with ⟨ires, ievs⟩
  rcases ires with e | r
  · exact Or.inr ⟨rfl, rfl, rfl⟩
  · have := executeInner_ok_shape ex b r (by rw [hi])
    simpa using this

/-- The generic error dictionary of CodeExecutor.execute: output None,
exit code 1, str(e) as error detail, status "error". -/
def errorDict (e : PyExn) : ExecutionResult :=
  { output := none, exit_code := 1, error := some (excStr e), status := "error" }

/-- Boolean check that every containers.run invocation recorded in a trace
satisfies a predicate. -/
def runsSatisfy (p : ContainerRun → Bool) (evs : List Event) : Bool :=
  evs.all fun ev =>
    match ev with
    | .containerRun c => p c
    | _ => true

theorem runsSatisfy_iff (p : ContainerRun → Bool) (evs : List Event) :
    runsSatisfy p evs = true ↔
      ∀ c : ContainerRun, Event.containerRun c ∈ evs → p c = true := by
  unfold runsSatisfy
  rw [List.all_eq_true]
  constructor
  · intro h c hc
    exact h _ hc
  · intro h ev hev
    rcases ev with _ | _ | _ | _ | c | _ | _ | f <;> try rfl
    exact h c hev

/-- Master trace facts about one execute call, over every behaviour: exactly
one workspace is created and one destroyed; every containers.run invocation
that produced a container instance either carried remove=True or is followed
by a forced container removal in the same trace; every containers.run
invocation has network mode none; and the outcome of the cleanup removal
(APIError or success) changes nothing observable. -/
theorem execute_trace_facts (ex : CodeExecutor) (b : SandboxBehavior) (v : Bool) :
    ((execute ex b).2.count .wsCreate = 1 ∧ (execute ex b).2.count .wsDestroy = 1) ∧
    runsSatisfy (fun c => !c.started || c.autoRemove ||
        decide (Event.containerRemove true ∈ (execute ex b).2)) (execute ex b).2 = true ∧
    runsSatisfy (fun c => decide (c.networkMode = "none")) (execute ex b).2 = true ∧
    execute ex { b with removeRaisesApiError := v } = execute ex b := by
  rcases ex with ⟨lang, src, tl, ml, ⟨img, ext, ccmd, rcmd⟩⟩
  rcases b with ⟨fe, us, ws, co, rc, wo, we, lo, rr⟩
  unfold execute executeInner compileCode runPhase runCallEvent
  dsimp only
  rcases ws with _ | e0 <;> rcases ccmd with _ | cmd <;> rcases co with _ | e1 <;>
    rcases rc with _ | e2 <;> rcases wo with e3 | code <;> rcases lo with e4 | logs <;>
    dsimp only <;> (try split_ifs) <;> (try dsimp only) <;>
    exact ⟨⟨by decide, by decide⟩, by decide, by decide, rfl⟩

/-! Claim theorems. -/

/-- Claim C1: verdict classification applies its rules in order.  A result
with non-zero exit code classifies as RUNTIME_ERROR; every result execute
produces for a timeout, infrastructure or compile failure has non-success
status and hence classifies as RUNTIME_ERROR; with exit code zero the
verdict compares the two outputs stripped of leading and trailing whitespace
only — ACCEPTED exactly on equality, WRONG_ANSWER exactly on inequality, so
interior whitespace still distinguishes outputs. -/
theorem classification_rules :
    (∀ (r : ExecutionResult) (expected : String),
        r.exit_code ≠ 0 → classify r expected = .ok "RUNTIME_ERROR") ∧
    (∀ (ex : CodeExecutor) (b : SandboxBehavior) (expected : String),
        (execute ex b).1.status ≠ "success" →
        classify (execute ex b).1 expected = .ok "RUNTIME_ERROR") ∧
    (∀ (r : ExecutionResult) (out expected : String),
        r.exit_code = 0 → r.output = some out →
        ((classify r expected = .ok "ACCEPTED" ↔ pyStrip out = pyStrip expected) ∧
         (classify r expected = .ok "WRONG_ANSWER" ↔ pyStrip out ≠ pyStrip expected))) := by
  have h1 : ∀ (r : ExecutionResult) (expected : String),
      r.exit_code ≠ 0 → classify r expected = .ok "RUNTIME_ERROR" := by
    intro r expected h
    unfold classify
    rw [if_pos h]
  refine ⟨h1, ?_, ?_⟩
  · intro ex b expected h
    rcases execute_result_shape ex b with hs | ⟨hs, hexit, hout⟩
    · exact absurd hs h
    · exact h1 _ _ (by rw [hexit]; decide)
  · intro r out expected hexit hout
    unfold classify
    rw [if_neg (by rw [hexit]; decide), hout]
    dsimp only
    by_cases hcmp : pyStrip out = pyStrip expected
    · rw [if_neg (not_not_intro hcmp)]
      exact ⟨⟨fun _ => hcmp, fun _ => rfl⟩,
             ⟨fun h => absurd (Except.ok.inj h) (by decide), fun h => absurd hcmp h⟩⟩
    · rw [if_pos hcmp]
      exact ⟨⟨fun h => absurd (Except.ok.inj h) (by decide), fun h => absurd h hcmp⟩,
             ⟨fun _ => hcmp, fun _ => rfl⟩⟩

theorem classification_rules_witness :
    classify { output := some "boom", exit_code := 2, error := none,
               status := "success" } "x" = .ok "RUNTIME_ERROR" ∧
    classify (execute pythonExec timeoutBehavior).1 "x" = .ok "RUNTIME_ERROR" ∧
    classify { output := some "5\n", exit_code := 0, error := none,
               status := "success" } "5" = .ok "ACCEPTED" ∧
    classify { output := some "5 \n6", exit_code := 0, error := none,
               status := "success" } "5\n6" = .ok "WRONG_ANSWER" := by
  refine ⟨classification_rules.1 _ "x" (by decide), ?_, ?_, ?_⟩
  · exact classification_rules.2.1 pythonExec timeoutBehavior "x" (by decide)
  · exact (classification_rules.2.2 _ "5\n" "5" rfl rfl).1.mpr (by decide)
  · exact (classification_rules.2.2 _ "5 \n6" "5\n6" rfl rfl).2.mpr (by decide)

/-- Claim C6: the aggregate submission result is ACCEPTED exactly when every
case verdict is ACCEPTED, it takes no value other than ACCEPTED or
WRONG_ANSWER, and in particular a RUNTIME_ERROR case makes the aggregate
WRONG_ANSWER. -/
theorem aggregate_rules (results : List CaseResult) :
    (aggregate results = "ACCEPTED" ↔ ∀ r ∈ results, r.status = "ACCEPTED") ∧
    (aggregate results = "ACCEPTED" ∨ aggregate results = "WRONG_ANSWER") ∧
    ((∃ r ∈ results, r.status = "RUNTIME_ERROR") →
      aggregate results = "WRONG_ANSWER") := by
  unfold aggregate
  by_cases h : results.all (fun r => r.status = "ACCEPTED") = true
  · rw [if_pos h]
    rw [List.all_eq_true] at h
    refine ⟨⟨fun _ r hr => by simpa using h r hr, fun _ => rfl⟩, Or.inl rfl, ?_⟩
    intro ⟨r, hr, hst⟩
    have h2 := h r hr
    rw [hst] at h2
    simp at h2
  · rw [if_neg h]
    rw [List.all_eq_true] at h
    refine ⟨⟨fun hw => absurd hw (by decide), fun hall => ?_⟩, Or.inr rfl, fun _ => rfl⟩
    exact absurd (fun r hr => by simpa using hall r hr) h

/-- Per-case verdict lists used to exercise the aggregation. -/
def waList : List CaseResult :=
  [⟨"1", "ACCEPTED", PyVal.none, PyVal.none⟩, ⟨"2", "ACCEPTED", PyVal.none, PyVal.none⟩,
   ⟨"3", "WRONG_ANSWER", PyVal.none, PyVal.none⟩]

def acList : List CaseResult :=
  [⟨"1", "ACCEPTED", PyVal.none, PyVal.none⟩, ⟨"2", "ACCEPTED", PyVal.none, PyVal.none⟩,
   ⟨"3", "ACCEPTED", PyVal.none, PyVal.none⟩]

def reList : List CaseResult :=
  [⟨"1", "ACCEPTED", PyVal.none, PyVal.none⟩, ⟨"2", "RUNTIME_ERROR", PyVal.none, PyVal.none⟩]

theorem aggregate_rules_witness :
    aggregate waList = "WRONG_ANSWER" ∧ aggregate acList = "ACCEPTED" ∧
    aggregate reList = "WRONG_ANSWER" := by
  refine ⟨?_, (aggregate_rules acList).1.mpr (by decide), ?_⟩
  · rcases (aggregate_rules waList).2.1 with h | h
    · exact absurd ((aggregate_rules waList).1.mp h) (by decide)
    · exact h
  · exact (aggregate_rules reList).2.2
      ⟨⟨"2", "RUNTIME_ERROR", PyVal.none, PyVal.none⟩, by decide, rfl⟩

/-- Claim C7: on every behaviour — hence on every exit path, including
exceptions raised while waiting — each execute call creates exactly one
workspace and destroys exactly one workspace, every container instance
started during the call either was started with the auto-removing
remove=True flag (the compile phase) or receives a forced removal call
recorded in the same trace (the detached run phase), and an APIError raised
purely by the cleanup removal changes neither the result nor the trace. -/
theorem cleanup_invariant (ex : CodeExecutor) (b : SandboxBehavior) (v : Bool) :
    ((execute ex b).2.count .wsCreate = 1 ∧ (execute ex b).2.count .wsDestroy = 1) ∧
    (∀ c : ContainerRun, Event.containerRun c ∈ (execute ex b).2 → c.started = true →
      (c.autoRemove = true ∨ Event.containerRemove true ∈ (execute ex b).2)) ∧
    execute ex { b with removeRaisesApiError := v } = execute ex b := by
  obtain ⟨hcount, hrem, _, hinv⟩ := execute_trace_facts ex b v
  refine ⟨hcount, ?_, hinv⟩
  intro c hc hst
  have h2 := (runsSatisfy_iff _ _).mp hrem c hc
  rw [hst] at h2
  simp only [Bool.not_true, Bool.false_or, Bool.or_eq_true, decide_eq_true_eq] at h2
  exact h2

/-- The run-phase containers.run invocation record with a started container. -/
def runStartedCall : ContainerRun :=
  { phase := .run, networkMode := "none", detach := true, autoRemove := false,
    started := true }

/-- The compile-phase containers.run invocation record. -/
def compileCall : ContainerRun :=
  { phase := .compile, networkMode := "none", detach := false, autoRemove := true,
    started := true }

theorem cleanup_invariant_witness :
    (((execute pythonExec timeoutBehavior).2.count .wsCreate = 1 ∧
      (execute pythonExec timeoutBehavior).2.count .wsDestroy = 1) ∧
     Event.containerRemove true ∈ (execute pythonExec timeoutBehavior).2) ∧
    execute pythonExec { timeoutBehavior with removeRaisesApiError := true } =
      execute pythonExec timeoutBehavior := by
  obtain ⟨hcount, hrem, hinv⟩ := cleanup_invariant pythonExec timeoutBehavior true
  refine ⟨⟨hcount, ?_⟩, hinv⟩
  have h2 := hrem runStartedCall (by decide) rfl
  rcases h2 with h2 | h2
  · exact absurd h2 (by decide)
  · exact h2

/-- Claim C8: every containers.run invocation the execution controller makes
— compile phase and run phase, for every language and every behaviour — is
issued with network mode none. -/
theorem network_always_disabled (ex : CodeExecutor) (b : SandboxBehavior)
    (c : ContainerRun) (hc : Event.containerRun c ∈ (execute ex b).2) :
    c.networkMode = "none" := by
  obtain ⟨_, _, hnet, _⟩ := execute_trace_facts ex b true
  have h2 := (runsSatisfy_iff _ _).mp hnet c hc
  simpa using h2

theorem network_always_disabled_witness :
    compileCall.networkMode = "none" ∧ runStartedCall.networkMode = "none" := by
  constructor
  · exact network_always_disabled cppExec (happyBehavior "ok") compileCall (by decide)
  · exact network_always_disabled pythonExec (happyBehavior "ok") runStartedCall (by decide)

/-- Claim C2 counterexample: an unanticipated exception at the outermost
level of execute is converted to a result whose status literal is the generic
"error" — there is no "infra_error" status value in the code — and
constructing the executor (the pre-flight step containing language
resolution) can also fail with DockerConnectionError, which is not an
UnsupportedLanguageError. -/
theorem execute_infra_status_cex :
    (execute pythonExec runApiErrorBehavior).1.status = "error" ∧
    ¬ (execute pythonExec runApiErrorBehavior).1.status = "infra_error" ∧
    (initExecutor dockerDownBehavior "python" "x" 1 64).1 =
      .error (.dockerConnectionError "Failed to connect to Docker daemon") ∧
    (PyExn.dockerConnectionError
      "Failed to connect to Docker daemon").isUnsupportedLanguage = false :=
  ⟨rfl, by decide, rfl, rfl⟩

/-- Claim C2 (amended): no exception ever propagates out of execute — any
exception escaping the body is caught by the outermost handler and converted
into an ExecutionResult dictionary with the generic status "error" and exit
code 1; and the only failures the constructor (pre-flight language
resolution plus docker connection) can raise are UnsupportedLanguageError
and DockerConnectionError. -/
theorem execute_never_propagates (ex : CodeExecutor) (b : SandboxBehavior)
    (e : PyExn) (evs : List Event) (lang src : String) (tl ml : Int) (e2 : PyExn) :
    (executeInner ex b = (.error e, evs) →
      execute ex b = ({ output := none, exit_code := 1, error := some (excStr e),
                        status := "error" }, evs)) ∧
    ((initExecutor b lang src tl ml).1 = .error e2 →
      (e2.isUnsupportedLanguage = true ∨ e2.isDockerConnectionError = true)) := by
  constructor
  · intro h
    unfold execute
    rw [h]
  · intro h
    unfold initExecutor initializeDocker configure_language at h
    by_cases hfe : b.fromEnvOk
    · rw [if_pos hfe] at h
      rcases hl : LANGUAGE_CONFIGS lang with _ | cfg <;> rw [hl] at h <;>
        dsimp only at h
      · exact Or.inl (by injection h with h2; rw [← h2]; rfl)
      · exact absurd h (by simp)
    · rw [if_neg hfe] at h
      by_cases hus : b.unixSocketOk
      · rw [if_pos hus] at h
        rcases hl : LANGUAGE_CONFIGS lang with _ | cfg <;> rw [hl] at h <;>
          dsimp only at h
        · exact Or.inl (by injection h with h2; rw [← h2]; rfl)
        · exact absurd h (by simp)
      · rw [if_neg hus] at h
        dsimp only at h
        exact Or.inr (by injection h with h2; rw [← h2]; rfl)

/-- The run-phase containers.run invocation record when the client call
raised and no container instance was created. -/
def runFailedCall : ContainerRun :=
  { phase := .run, networkMode := "none", detach := true, autoRemove := false,
    started := false }

theorem execute_never_propagates_witness :
    execute pythonExec runApiErrorBehavior =
      ({ output := none, exit_code := 1, error := some (excStr .apiError),
         status := "error" },
       [Event.wsCreate, Event.containerRun runFailedCall, Event.wsDestroy]) ∧
    ((PyExn.dockerConnectionError
        "Failed to connect to Docker daemon").isUnsupportedLanguage = true ∨
     (PyExn.dockerConnectionError
        "Failed to connect to Docker daemon").isDockerConnectionError = true) := by
  constructor
  · exact (execute_never_propagates pythonExec runApiErrorBehavior .apiError
      [Event.wsCreate, Event.containerRun runFailedCall, Event.wsDestroy]
      "python" "x" 1 64
      (.dockerConnectionError "Failed to connect to Docker daemon")).1 rfl
  · exact (execute_never_propagates pythonExec dockerDownBehavior .apiError []
      "python" "x" 1 64
      (.dockerConnectionError "Failed to connect to Docker daemon")).2 rfl

/-- Claim C3 counterexample: when the wait on the container exceeds the
request's time limit, execute classifies the result with the generic status
"error" — there is no "timeout" status value in the code — although the
container is indeed force-removed. -/
theorem timeout_status_cex :
    (execute pythonExec timeoutBehavior).1.status = "error" ∧
    ¬ (execute pythonExec timeoutBehavior).1.status = "timeout" ∧
    Event.containerRemove true ∈ (execute pythonExec timeoutBehavior).2 :=
  ⟨rfl, by decide, by decide⟩

/-- Claim C3 (amended): when the wait on the sandbox process raises the
read-timeout exception of the underlying HTTP client, execute returns the
generic error dictionary (status "error", exit code 1) rather than a
distinct timeout status, and the trace contains a forced removal of the
container instance. -/
theorem timeout_error_and_removed (ex : CodeExecutor) (b : SandboxBehavior)
    (hws : b.wsOutcome = none) (hco : b.compileOutcome = none)
    (hrc : b.runCreateOutcome = none) (hwo : b.waitOutcome = .error .readTimeout) :
    (execute ex b).1 = errorDict .readTimeout ∧
    Event.containerRemove true ∈ (execute ex b).2 := by
  unfold execute executeInner compileCode runPhase
  rw [hws, hco, hrc, hwo]
  rcases hc : ex.language_config.compile_cmd with _ | cmd <;>
    dsimp only <;>
    rw [if_neg (by decide : ¬ PyExn.readTimeout = PyExn.notFound),
        if_neg (by decide : ¬ PyExn.readTimeout = PyExn.containerError)] <;>
    exact ⟨rfl, by decide⟩

theorem timeout_error_and_removed_witness :
    (execute pythonExec timeoutBehavior).1 = errorDict .readTimeout ∧
    Event.containerRemove true ∈ (execute pythonExec timeoutBehavior).2 :=
  timeout_error_and_removed pythonExec timeoutBehavior rfl rfl rfl rfl

/-- Claim C4 counterexample: a failing compile phase produces a result whose
status literal is the generic "error" — there is no "compile_error" status
value in the code — although no run-phase container invocation occurs
(every containers.run in the trace is compile-phase). -/
theorem compile_status_cex :
    (execute cppExec compileFailBehavior).1.status = "error" ∧
    ¬ (execute cppExec compileFailBehavior).1.status = "compile_error" ∧
    runsSatisfy (fun c => decide (c.phase = Phase.compile))
      (execute cppExec compileFailBehavior).2 = true :=
  ⟨rfl, by decide, by decide⟩

/-- Claim C4 (amended): for a language whose profile declares a compile
command, a compile-phase container that exits non-zero makes execute raise
CompilationError internally, which the outermost handler converts into the
generic error dictionary (status "error", exit code 1, not a distinct
"compile_error" status); no run-phase container invocation ever appears in
the trace, and the resulting case verdict is RUNTIME_ERROR. -/
theorem compile_failure_no_run (ex : CodeExecutor) (b : SandboxBehavior) (cmd : String)
    (hcmd : ex.language_config.compile_cmd = some cmd) (hws : b.wsOutcome = none)
    (hco : b.compileOutcome = some .containerError) (expected : String) :
    (execute ex b).1 =
      errorDict (.compilationError ("Compilation failed: " ++ excStr .containerError)) ∧
    runsSatisfy (fun c => decide (c.phase = Phase.compile)) (execute ex b).2 = true ∧
    classify (execute ex b).1 expected = .ok "RUNTIME_ERROR" := by
  have h1 : execute ex b =
      (errorDict (.compilationError ("Compilation failed: " ++ excStr .containerError)),
       [Event.wsCreate, Event.containerRun compileCall, Event.wsDestroy]) := by
    unfold execute executeInner compileCode
    rw [hws, hcmd, hco]
    dsimp only
    rw [if_pos rfl]
    rfl
  refine ⟨by rw [h1], ?_, ?_⟩
  · rw [h1]
    show runsSatisfy (fun c => decide (c.phase = Phase.compile))
      [Event.wsCreate, Event.containerRun compileCall, Event.wsDestroy] = true
    decide
  · rw [h1]
    rfl

theorem compile_failure_no_run_witness :
    (execute cppExec compileFailBehavior).1 =
      errorDict (.compilationError ("Compilation failed: " ++ excStr .containerError)) ∧
    runsSatisfy (fun c => decide (c.phase = Phase.compile))
      (execute cppExec compileFailBehavior).2 = true ∧
    classify (execute cppExec compileFailBehavior).1 "5" = .ok "RUNTIME_ERROR" :=
  compile_failure_no_run cppExec compileFailBehavior "g++ {filename} -o program"
    rfl rfl rfl "5"

/-- Claim C5 counterexample: for the unregistered language java, with the
Docker daemon reachable, the constructor does raise UnsupportedLanguageError
but only after the sandbox runtime client has been created and pinged — the
runtime connection (a sandbox resource per the concurrency model) is touched
before language resolution; and with the daemon unreachable, the same
unregistered language fails with DockerConnectionError instead of
UnsupportedLanguageError. -/
theorem unsupported_touches_runtime_cex :
    (initExecutor (happyBehavior "") "java" "x" 1 64).1 =
      .error (.unsupportedLanguage "Unsupported language: java") ∧
    Event.dockerPing ∈ (initExecutor (happyBehavior "") "java" "x" 1 64).2 ∧
    (initExecutor dockerDownBehavior "java" "x" 1 64).1 =
      .error (.dockerConnectionError "Failed to connect to Docker daemon") ∧
    (PyExn.dockerConnectionError
      "Failed to connect to Docker daemon").isUnsupportedLanguage = false :=
  ⟨rfl, by decide, rfl, rfl⟩

/-- Claim C5 (amended): for every unregistered language, when the Docker
daemon answers the first connection attempt, construction fails with
UnsupportedLanguageError and at that point no workspace has been created
and no container invocation has occurred — but the trace already contains
the runtime-client initialization and ping, which precede language
resolution. -/
theorem unsupported_language_preflight (b : SandboxBehavior) (lang src : String)
    (tl ml : Int) (hlang : LANGUAGE_CONFIGS lang = none) (hb : b.fromEnvOk = true) :
    initExecutor b lang src tl ml =
      (.error (.unsupportedLanguage ("Unsupported language: " ++ lang)),
       [Event.dockerInit, Event.dockerPing]) ∧
    Event.wsCreate ∉ (initExecutor b lang src tl ml).2 ∧
    runsSatisfy (fun _ => false) (initExecutor b lang src tl ml).2 = true := by
  have h1 : initExecutor b lang src tl ml =
      (.error (.unsupportedLanguage ("Unsupported language: " ++ lang)),
       [Event.dockerInit, Event.dockerPing]) := by
    unfold initExecutor initializeDocker configure_language
    rw [if_pos hb, hlang]
  refine ⟨h1, ?_, ?_⟩
  · rw [h1]
    show Event.wsCreate ∉ [Event.dockerInit, Event.dockerPing]
    decide
  · rw [h1]
    show runsSatisfy (fun _ => false) [Event.dockerInit, Event.dockerPing] = true
    decide

theorem unsupported_language_preflight_witness :
    initExecutor (happyBehavior "") "java" "x" 1 64 =
      (.error (.unsupportedLanguage ("Unsupported language: " ++ "java")),
       [Event.dockerInit, Event.dockerPing]) ∧
    Event.wsCreate ∉ (initExecutor (happyBehavior "") "java" "x" 1 64).2 ∧
    runsSatisfy (fun _ => false)
      (initExecutor (happyBehavior "") "java" "x" 1 64).2 = true :=
  unsupported_language_preflight (happyBehavior "") "java" "x" 1 64 rfl rfl

/-- A judge request whose problem fetch fails (collaborator unreachable or
non-2xx): get_problem returns None. -/
def downJudge : JudgeBehavior :=
  { problemResp := none, testCasesResp := some [], sandbox := happyBehavior "" }

/-- A fully healthy judge request with one test case whose program prints
exactly the expected output. -/
def okJudge : JudgeBehavior :=
  { problemResp := some { timeLimit := 1, memoryLimit := 64 },
    testCasesResp := some [{ id := "t1", input := "hello", output := "hello" }],
    sandbox := happyBehavior "hello\n" }

/-- Claim C9 (code bug): when the collaborator is unreachable, get_problem
returns None and the endpoint immediately subscripts it, raising an
unhandled TypeError before any execution begins — not the typed rejection
the claim requires; moreover even a fully healthy request with one test
case raises an unhandled KeyError, because the endpoint reads the key
execution_time which the execute result dictionary never contains. -/
theorem collaborator_down_unhandled :
    judge downJudge "s1" "p1" "python" "x" =
      (.error (.typeError "NoneType object is not subscriptable"), []) ∧
    (judge okJudge "s1" "p1" "python" "x").1 = .error (.keyError "execution_time") :=
  ⟨rfl, rfl⟩

/-- Claim C10: with an empty list of test cases from the collaborator, the
judge endpoint performs no sandbox run at all (no workspace, no container
invocation in the trace) and returns a report whose aggregate result is
ACCEPTED with an empty per-case list. -/
theorem empty_test_cases_accepted (b : SandboxBehavior) (p : Problem)
    (sid pid src : String) (hb : b.fromEnvOk = true) :
    judge { problemResp := some p, testCasesResp := some [], sandbox := b }
        sid pid "python" src =
      (.ok (.report { submissionId := sid, result := "ACCEPTED", testResults := [] }),
       [Event.dockerInit, Event.dockerPing]) ∧
    Event.wsCreate ∉
      (judge { problemResp := some p, testCasesResp := some [], sandbox := b }
        sid pid "python" src).2 ∧
    runsSatisfy (fun _ => false)
      (judge { problemResp := some p, testCasesResp := some [], sandbox := b }
        sid pid "python" src).2 = true := by
  have hinit : initExecutor b "python" src p.timeLimit p.memoryLimit =
      (.ok ⟨"python", src, p.timeLimit, p.memoryLimit, pythonConfig⟩,
       [Event.dockerInit, Event.dockerPing]) := by
    unfold initExecutor initializeDocker
    rw [if_pos hb]
    rfl
  have h1 : judge { problemResp := some p, testCasesResp := some [], sandbox := b }
      sid pid "python" src =
      (.ok (.report { submissionId := sid, result := "ACCEPTED", testResults := [] }),
       [Event.dockerInit, Event.dockerPing]) := by
    unfold judge
    dsimp only
    rw [hinit]
    rfl
  refine ⟨h1, ?_, ?_⟩
  · rw [h1]
    show Event.wsCreate ∉ [Event.dockerInit, Event.dockerPing]
    decide
  · rw [h1]
    show runsSatisfy (fun _ => false) [Event.dockerInit, Event.dockerPing] = true
    decide

theorem empty_test_cases_accepted_witness :
    judge { problemResp := some { timeLimit := 1, memoryLimit := 64 },
            testCasesResp := some [], sandbox := happyBehavior "" }
        "s1" "p1" "python" "x" =
      (.ok (.report { submissionId := "s1", result := "ACCEPTED", testResults := [] }),
       [Event.dockerInit, Event.dockerPing]) :=
  (empty_test_cases_accepted (happyBehavior "")
    { timeLimit := 1, memoryLimit := 64 } "s1" "p1" "x" rfl).1

end Judgebox
